import Mathlib

/-
Verification of the ALS user-settings subsystem (src/als/config.py).

The module keeps user settings in a `configparser.ConfigParser` holding one
section ("main"), merged with compiled-in defaults `_DEFAULTS`.  We embed the
configuration state as an association list of sections, each section an
association list of option names to raw string values, and translate the
module's functions (`_get`, `_set`, the typed accessors, `save`, and the
module-level initialisation code) into executable Lean definitions.

The parts of the Python standard library that the module visibly relies on
are embedded from their documented and observed behaviour:
  * `ConfigParser.get(section, option, fallback=...)` returns the fallback if
    the section or option is missing, and otherwise the stored value expanded
    by `BasicInterpolation.before_get` (`%%` reads back as `%`, `%(name)s`
    references another option of the same section, anything else after `%`
    is an interpolation syntax error; recursion is capped at depth 10).
  * `ConfigParser.set` raises `TypeError` for non-string values
    (`_validate_value_types`), then validates interpolation syntax
    (`BasicInterpolation.before_set`), then stores the raw value under the
    lower-cased option name (`optionxform`).
  * `ConfigParser.read` skips a missing file; a malformed file raises
    `DuplicateOptionError`, `DuplicateSectionError` or `ParsingError`
    (`MissingSectionHeaderError` is a `ParsingError`).  The embedded reader
    covers flat files: full-line comments (`#`/`;`), `[section]` headers,
    `key = value` / `key : value` option lines without continuation lines,
    and no special `[DEFAULT]` section; parse errors on ordinary lines are
    recorded and reported at end of file, duplicates abort immediately.
  * Python `int(str)` accepts optional surrounding whitespace, an optional
    sign, and ASCII digits with single underscores between digits.
  * `os.path.expanduser` replaces a leading `~` with the home directory.
Character-level operations are written on `List Char` via structural
recursion so that every definition evaluates inside the kernel.
-/

namespace AlsConfig

/-- A dynamically typed Python value as it flows through `_set`: the repo
passes strings from the GUI and (per the docstring of
`set_www_server_port_number`) integers; `save` returns `None`. -/
inductive PyVal where
  | str (s : String)
  | int (n : Int)
  | pyNone
deriving DecidableEq, Repr

/-- The Python exceptions that can escape the embedded operations. -/
inductive PyErr where
  | keyError
  | typeError
  | valueError
  | noSectionError
  | duplicateSectionError
  | interpolationSyntaxError
  | interpolationMissingOptionError
  | interpolationDepthError
deriving DecidableEq, Repr

/-- Errors of `ConfigParser.read`: `DuplicateOptionError`,
`DuplicateSectionError`, and `ParsingError` (which subsumes
`MissingSectionHeaderError`). -/
inductive ParseErr where
  | dupOption
  | dupSection
  | parsing
deriving DecidableEq, Repr

/-- Python `==` between the values above: equal only within the same type
(`1 == "1"` is `False` in Python). -/
def pyValEq : PyVal → PyVal → Bool
  | .str a, .str b => a == b
  | .int a, .int b => a == b
  | .pyNone, .pyNone => true
  | _, _ => false

/-- Lookup in an insertion-ordered string-keyed mapping (a Python `dict`). -/
def alookup {α : Type} : List (String × α) → String → Option α
  | [], _ => Option.none
  | (k', v') :: rest, k => if k' = k then some v' else alookup rest k

/-- `d[k] = v` on a Python `dict`: replace the binding in place if the key is
present, otherwise append it. -/
def aset {α : Type} : List (String × α) → String → α → List (String × α)
  | [], k, v => [(k, v)]
  | (k', v') :: rest, k, v =>
      if k' = k then (k, v) :: rest else (k', v') :: aset rest k v

/-- `del d[k]` on a Python `dict` (keys are unique in every reachable state,
so removing every binding with key `k` is equivalent). -/
def aremove {α : Type} : List (String × α) → String → List (String × α)
  | [], _ => []
  | (k', v') :: rest, k =>
      if k' = k then aremove rest k else (k', v') :: aremove rest k

/-- The keys of a mapping, in order (`list(d.keys())`). -/
def keysOf {α : Type} (l : List (String × α)) : List String := l.map (·.1)

/-- `str.lower` on the ASCII option names this module uses
(`ConfigParser.optionxform`). -/
def pyLower (s : String) : String := String.mk (s.data.map Char.toLower)

/-- The whitespace characters stripped by Python `str.strip()` (ASCII part). -/
def isPySpace (c : Char) : Bool :=
  c = ' ' ∨ c = '\t' ∨ c = '\n' ∨ c = '\r' ∨ c = '\x0b' ∨ c = '\x0c'

/-- `str.strip()`: drop leading and trailing whitespace. -/
def pyStrip (s : String) : String :=
  String.mk ((((s.data.dropWhile isPySpace).reverse).dropWhile isPySpace).reverse)

/-- `str.split(",")`: split on every comma; `""` splits to `[""]`. -/
def pySplitCommaAux : List Char → List Char → List String
  | [], acc => [String.mk acc.reverse]
  | c :: rest, acc =>
      if c = ',' then String.mk acc.reverse :: pySplitCommaAux rest []
      else pySplitCommaAux rest (c :: acc)

/-- `str.split(",")` on a string. -/
def pySplitComma (s : String) : List String := pySplitCommaAux s.data []

/-- `",".join(...)`. -/
def pyJoinComma : List String → String
  | [] => ""
  | [s] => s
  | s :: rest => s ++ "," ++ pyJoinComma rest

/-- `os.path.expanduser`, restricted to the `~/...` literals the module uses:
a leading `~` is replaced by the home directory. -/
def expanduser (home path : String) : String :=
  match path.data with
  | '~' :: rest => home ++ String.mk rest
  | _ => path

/-- Digit run of a Python integer literal after its first digit: ASCII digits
with single underscores allowed between digits. -/
def pyDigits : Nat → List Char → Option Nat
  | acc, [] => some acc
  | acc, '_' :: c :: rest =>
      if c.isDigit then pyDigits (acc * 10 + (c.toNat - 48)) rest else Option.none
  | _, ['_'] => Option.none
  | acc, c :: rest =>
      if c.isDigit then pyDigits (acc * 10 + (c.toNat - 48)) rest else Option.none

/-- The digits of a Python integer literal (must start with a digit). -/
def pyIntDigits : List Char → Option Nat
  | [] => Option.none
  | c :: rest => if c.isDigit then pyDigits (c.toNat - 48) rest else Option.none

/-- Python `int(s)` on a string: `some n` on success, `none` when it raises
`ValueError`.  Accepts optional surrounding whitespace and an optional sign. -/
def pyInt (s : String) : Option Int :=
  match (((s.data.dropWhile isPySpace).reverse).dropWhile isPySpace).reverse with
  | '+' :: rest => (pyIntDigits rest).map Int.ofNat
  | '-' :: rest => (pyIntDigits rest).map (fun n => -(n : Int))
  | rest => (pyIntDigits rest).map Int.ofNat

/-- `configparser`'s `KEYCRE` regex `%\(([^)]+)\)s` matched at the head of the
list: on success returns the referenced name and the remainder after the
match. -/
def matchKeyRef : List Char → Option (List Char × List Char)
  | a :: b :: rest =>
      if a = '%' ∧ b = '(' then
        match rest.dropWhile (fun c => c ≠ ')') with
        | ')' :: 's' :: tail =>
            if rest.takeWhile (fun c => c ≠ ')') = ([] : List Char) then Option.none
            else some (rest.takeWhile (fun c => c ≠ ')'), tail)
        | _ => Option.none
      else Option.none
  | _ => Option.none

/-- `value.replace("%%", "")`, the first pass of
`BasicInterpolation.before_set`. -/
def removeEscapedPercents : List Char → List Char
  | [] => []
  | [c] => [c]
  | a :: b :: rest =>
      if a = '%' ∧ b = '%' then removeEscapedPercents rest
      else a :: removeEscapedPercents (b :: rest)

/-- `KEYCRE.sub('', value)`: remove every non-overlapping leftmost match of
`%(name)s`.  The fuel starts at the list length, which always suffices since
every step consumes at least one character. -/
def removeKeyRefs : Nat → List Char → List Char
  | 0, l => l
  | _ + 1, [] => []
  | fuel + 1, c :: rest =>
      match matchKeyRef (c :: rest) with
      | some (_, tail) => removeKeyRefs fuel tail
      | Option.none => c :: removeKeyRefs fuel rest

/-- `BasicInterpolation.before_set`: after removing escaped percents and
well-formed `%(name)s` references, no `%` may remain; otherwise
`ConfigParser.set` raises `ValueError("invalid interpolation syntax ...")`. -/
def checkInterpSyntax (s : String) : Bool :=
  !(removeKeyRefs (removeEscapedPercents s.data).length
      (removeEscapedPercents s.data)).contains '%'

/-- One recursion level of `BasicInterpolation._interpolate_some`, scanning a
value left to right: `%%` yields a literal `%`, `%(name)s` splices in the
referenced option of the same section (recursing via `recur` when the
referenced raw value itself contains `%`), any other use of `%` raises an
interpolation syntax error.  The fuel starts at the list length, which always
suffices since every step consumes at least one character. -/
def scanLevel (sect : List (String × String))
    (recur : List Char → Except PyErr (List Char)) :
    Nat → List Char → Except PyErr (List Char)
  | _, [] => .ok []
  | 0, _ :: _ => .error .interpolationSyntaxError
  | fuel + 1, c :: rest =>
      if c = '%' then
        match rest with
        | [] => .error .interpolationSyntaxError
        | d :: rest2 =>
            if d = '%' then
              match scanLevel sect recur fuel rest2 with
              | .ok t => .ok ('%' :: t)
              | .error e => .error e
            else if d = '(' then
              match matchKeyRef (c :: rest) with
              | Option.none => .error .interpolationSyntaxError
              | some (name, tail) =>
                  match alookup sect (pyLower (String.mk name)) with
                  | Option.none => .error .interpolationMissingOptionError
                  | some v =>
                      if v.data.contains '%' then
                        match recur v.data with
                        | .error e => .error e
                        | .ok ex =>
                            match scanLevel sect recur fuel tail with
                            | .ok t => .ok (ex ++ t)
                            | .error e => .error e
                      else
                        match scanLevel sect recur fuel tail with
                        | .ok t => .ok (v.data ++ t)
                        | .error e => .error e
            else .error .interpolationSyntaxError
      else
        match scanLevel sect recur fuel rest with
        | .ok t => .ok (c :: t)
        | .error e => .error e

/-- `BasicInterpolation._interpolate_some` indexed by the number of remaining
recursion levels: Python starts at depth 1 and raises
`InterpolationDepthError` when entering depth 11 (`MAX_INTERPOLATION_DEPTH`
is 10), hence 10 available levels. -/
def interpLevels (sect : List (String × String)) :
    Nat → List Char → Except PyErr (List Char)
  | 0, _ => .error .interpolationDepthError
  | levels + 1, l => scanLevel sect (interpLevels sect levels) l.length l

/-- `BasicInterpolation.before_get` on a stored raw value. -/
def interpolate (sect : List (String × String)) (v : String) :
    Except PyErr String :=
  match interpLevels sect 10 v.data with
  | .ok l => .ok (String.mk l)
  | .error e => .error e

/-- The in-memory option mapping of one section. -/
abbrev Section := List (String × String)

/-- The full `ConfigParser` state: sections in insertion order. -/
abbrev PState := List (String × Section)

/-- Key constant (config.py line 30). -/
def _SCAN_FOLDER_PATH : String := "scan_folder_path"

/-- Key constant (config.py line 31). -/
def _WORK_FOLDER_PATH : String := "work_folder_path"

/-- Key constant (config.py line 32). -/
def _LOG_LEVEL : String := "log_level"

/-- Key constant (config.py line 33). -/
def _WWW_SERVER_PORT : String := "www_server_port"

/-- Key constant (config.py line 34). -/
def _WINDOW_GEOMETRY : String := "window_geometry"

/-- Log-level name constant (config.py line 37). -/
def _LOG_LEVEL_DEBUG : String := "DEBUG"

/-- Log-level name constant (config.py line 38). -/
def _LOG_LEVEL_INFO : String := "INFO"

/-- `_LOG_LEVELS` (config.py lines 45-51): human readable level names mapped
to the `logging` module constants. -/
def _LOG_LEVELS : List (String × Nat) :=
  [("DEBUG", 10), ("INFO", 20), ("WARNING", 30), ("ERROR", 40), ("CRITICAL", 50)]

/-- `_DEFAULTS` (config.py lines 54-60): application default raw values,
parameterised by the user's home directory used by `os.path.expanduser`. -/
def _DEFAULTS (home : String) : List (String × String) :=
  [(_SCAN_FOLDER_PATH, expanduser home "~/als/scan"),
   (_WORK_FOLDER_PATH, expanduser home "~/als/work"),
   (_LOG_LEVEL, "INFO"),
   (_WWW_SERVER_PORT, "8000"),
   (_WINDOW_GEOMETRY, "50,100,1024,800")]

/-- `_MAIN_SECTION_NAME` (config.py line 61). -/
def _MAIN_SECTION_NAME : String := "main"

/-- `_get` (config.py lines 196-207):
`_CONFIG_PARSER.get(_MAIN_SECTION_NAME, key, fallback=_DEFAULTS[key])`.
The fallback argument is evaluated first, so an unrecognized key raises
`KeyError`; a missing section or option returns the fallback unchanged; a
stored value is expanded by `BasicInterpolation.before_get`. -/
def _get (home : String) (st : PState) (key : String) : Except PyErr String :=
  match alookup (_DEFAULTS home) key with
  | Option.none => .error .keyError
  | some fb =>
      match alookup st _MAIN_SECTION_NAME with
      | Option.none => .ok fb
      | some sect =>
          match alookup sect (pyLower key) with
          | Option.none => .ok fb
          | some v => interpolate sect v

/-- `_set` (config.py lines 210-220): writes only when `value != _get(key)`.
The write is `ConfigParser.set`, which first rejects non-string values with
`TypeError`, then validates interpolation syntax (`before_set`), then stores
the raw value under the lower-cased option name in the "main" section. -/
def _set (home : String) (st : PState) (key : String) (value : PyVal) :
    Except PyErr PState :=
  match _get home st key with
  | .error e => .error e
  | .ok cur =>
      if pyValEq value (.str cur) then .ok st
      else
        match value with
        | .str s =>
            if checkInterpSyntax s then
              match alookup st _MAIN_SECTION_NAME with
              | Option.none => .error .noSectionError
              | some sect =>
                  .ok (aset st _MAIN_SECTION_NAME (aset sect (pyLower key) s))
            else .error .valueError
        | _ => .error .typeError

/-- `is_debug_log_on` (config.py lines 64-70). -/
def is_debug_log_on (home : String) (st : PState) : Except PyErr Bool :=
  match _get home st _LOG_LEVEL with
  | .ok lvl => .ok (lvl == "DEBUG")
  | .error e => .error e

/-- `set_debug_log` (config.py lines 73-83). -/
def set_debug_log (home : String) (st : PState) (debug_active : Bool) :
    Except PyErr PState :=
  if debug_active then _set home st _LOG_LEVEL (.str _LOG_LEVEL_DEBUG)
  else _set home st _LOG_LEVEL (.str _LOG_LEVEL_INFO)

/-- `get_www_server_port_number` (config.py lines 87-97): `int(_get(...))`,
returning the raw default `_DEFAULTS[_WWW_SERVER_PORT]` (the string `"8000"`)
when the conversion raises `ValueError`.  Exceptions other than `ValueError`
(e.g. interpolation errors from `_get`) propagate. -/
def get_www_server_port_number (home : String) (st : PState) :
    Except PyErr PyVal :=
  match _get home st _WWW_SERVER_PORT with
  | .error e => .error e
  | .ok s =>
      match pyInt s with
      | some n => .ok (.int n)
      | Option.none =>
          match alookup (_DEFAULTS home) _WWW_SERVER_PORT with
          | some d => .ok (.str d)
          | Option.none => .error .keyError

/-- `set_www_server_port_number` (config.py lines 100-107): passes the value
through to `_set` with no conversion and no range validation. -/
def set_www_server_port_number (home : String) (st : PState)
    (port_number : PyVal) : Except PyErr PState :=
  _set home st _WWW_SERVER_PORT port_number

/-- `get_work_folder_path` (config.py lines 110-117). -/
def get_work_folder_path (home : String) (st : PState) : Except PyErr String :=
  _get home st _WORK_FOLDER_PATH

/-- `set_work_folder_path` (config.py lines 120-127). -/
def set_work_folder_path (home : String) (st : PState) (path : String) :
    Except PyErr PState :=
  _set home st _WORK_FOLDER_PATH (.str path)

/-- `get_scan_folder_path` (config.py lines 130-137). -/
def get_scan_folder_path (home : String) (st : PState) : Except PyErr String :=
  _get home st _SCAN_FOLDER_PATH

/-- `set_scan_folder_path` (config.py lines 140-147). -/
def set_scan_folder_path (home : String) (st : PState) (path : String) :
    Except PyErr PState :=
  _set home st _SCAN_FOLDER_PATH (.str path)

/-- Conversion of the comma-separated segments in `get_window_geometry`:
`[int(value) for value in raw.split(",")]`; `int` raises `ValueError` on a
malformed segment and the comprehension propagates it. -/
def convSegs : List String → Except PyErr (List Int)
  | [] => .ok []
  | seg :: rest =>
      match pyInt seg with
      | Option.none => .error .valueError
      | some n =>
          match convSegs rest with
          | .ok ns => .ok (n :: ns)
          | .error e => .error e

/-- `get_window_geometry` (config.py lines 150-161): splits the raw value on
commas and converts every segment with `int`; the resulting Python tuple is
modelled as the list of its elements (its arity is the list length). -/
def get_window_geometry (home : String) (st : PState) :
    Except PyErr (List Int) :=
  match _get home st _WINDOW_GEOMETRY with
  | .ok s => convSegs (pySplitComma s)
  | .error e => .error e

/-- `set_window_geometry` (config.py lines 164-177):
`_set(_WINDOW_GEOMETRY, ",".join([str(value) for value in geometry_tuple]))`. -/
def set_window_geometry (home : String) (st : PState)
    (geometry_tuple : List Int) : Except PyErr PState :=
  _set home st _WINDOW_GEOMETRY
    (.str (pyJoinComma (geometry_tuple.map (fun value => toString value))))

/-- The caller-visible and observable outcome of one `save` call. -/
structure SaveOutcome where
  /-- The exception escaping `save`, if any (`Option.none`: returns normally). -/
  escaped : Option PyErr
  /-- The value `save` returns to its caller (Python `None` on both paths). -/
  ret : PyVal
  /-- Whether "User configuration saved" was logged at info severity. -/
  infoLogged : Bool
  /-- Whether "Could not save settings" was logged at error severity. -/
  errorLogged : Bool
  /-- Whether `dialogs.error_box` displayed the "Settings not saved" box. -/
  dialogShown : Bool
deriving DecidableEq, Repr

/-- `save` (config.py lines 181-193): writes the parser state to disk; the
`ioOk` flag models whether `open`/`write` succeed or raise `OSError`.  On
failure the `OSError` is caught, logged at error severity and surfaced by
`save` itself through `dialogs.error_box`; in both cases `save` returns
`None` and the in-memory parser state is untouched. -/
def save (st : PState) (ioOk : Bool) : SaveOutcome × PState :=
  if ioOk then
    ({ escaped := Option.none, ret := .pyNone, infoLogged := true,
       errorLogged := false, dialogShown := false }, st)
  else
    ({ escaped := Option.none, ret := .pyNone, infoLogged := false,
       errorLogged := true, dialogShown := true }, st)

/-- A `[section]` header line: `configparser.SECTCRE` is `\[([^]]+)\]`
matched at the start of the stripped line; characters after the closing
bracket are ignored. -/
def parseHeader (t : String) : Option String :=
  match t.data with
  | '[' :: rest =>
      match rest.dropWhile (fun c => c ≠ ']') with
      | ']' :: _ =>
          if rest.takeWhile (fun c => c ≠ ']') = ([] : List Char) then Option.none
          else some (String.mk (rest.takeWhile (fun c => c ≠ ']')))
      | _ => Option.none
  | _ => Option.none

/-- Split an option line at the first delimiter (`=` or `:`), per
`configparser`'s non-greedy `OPTCRE`. -/
def splitAtDelim : List Char → Option (List Char × List Char)
  | [] => Option.none
  | c :: rest =>
      if c = '=' ∨ c = ':' then some ([], rest)
      else (splitAtDelim rest).map (fun p => (c :: p.1, p.2))

/-- Whether a stripped line is a full-line comment (`#` or `;` prefix). -/
def isCommentLine (t : String) : Bool :=
  match t.data with
  | '#' :: _ => true
  | ';' :: _ => true
  | _ => false

/-- The line loop of `RawConfigParser._read` (strict mode): blank lines and
full-line comments are skipped; a section header opens a section (a repeated
header raises `DuplicateSectionError` immediately); an option line before any
header raises `MissingSectionHeaderError` (a `ParsingError`); a repeated
option within one section raises `DuplicateOptionError` immediately; a line
that is neither is recorded and reported as `ParsingError` after the whole
file has been processed.  Option names are stripped and lower-cased
(`optionxform`), values are stripped and stored raw. -/
def readLinesAux : List String → Option String → PState → Bool →
    Except ParseErr PState
  | [], _, secs, err => if err then .error .parsing else .ok secs
  | line :: rest, cur, secs, err =>
      if pyStrip line = "" then readLinesAux rest cur secs err
      else if isCommentLine (pyStrip line) then readLinesAux rest cur secs err
      else
        match parseHeader (pyStrip line) with
        | some h =>
            if (alookup secs h).isSome then .error .dupSection
            else readLinesAux rest (some h) (secs ++ [(h, [])]) err
        | Option.none =>
            match splitAtDelim (pyStrip line).data with
            | some (before, after) =>
                match cur with
                | Option.none => .error .parsing
                | some sec =>
                    match alookup secs sec with
                    | Option.none => .error .parsing
                    | some sect =>
                        if (alookup sect (pyLower (pyStrip (String.mk before)))).isSome then
                          .error .dupOption
                        else
                          readLinesAux rest cur
                            (aset secs sec
                              (sect ++ [(pyLower (pyStrip (String.mk before)),
                                         pyStrip (String.mk after))]))
                            err
            | Option.none => readLinesAux rest cur secs true

/-- `ConfigParser.read` on the settings file's lines. -/
def parseLines (lines : List String) : Except ParseErr PState :=
  readLinesAux lines Option.none [] false

/-- The `try/except` around `_CONFIG_PARSER.read` (config.py lines 227-232):
a missing file is skipped by `read` (the parser stays empty); a
`DuplicateOptionError` or `ParsingError` is re-raised as `ValueError`;
a `DuplicateSectionError` is not caught and propagates as itself. -/
def loadParser : Option (List String) → Except PyErr PState
  | Option.none => .ok []
  | some lines =>
      match parseLines lines with
      | .ok st => .ok st
      | .error .dupOption => .error .valueError
      | .error .parsing => .error .valueError
      | .error .dupSection => .error .duplicateSectionError

/-- The option names currently stored in the "main" section
(`_CONFIG_PARSER.options(_MAIN_SECTION_NAME)`). -/
def mainKeys (st : PState) : List String :=
  keysOf ((alookup st _MAIN_SECTION_NAME).getD [])

/-- `add_section` guarded by `has_section` (config.py lines 250-252). -/
def ensureMain (st : PState) : PState :=
  if (alookup st _MAIN_SECTION_NAME).isSome then st
  else aset st _MAIN_SECTION_NAME []

/-- `_CONFIG_PARSER.remove_option(_MAIN_SECTION_NAME, option)`.
`remove_option` applies `optionxform`; the option names passed in come from
`options(...)` and were already lower-cased when stored, so exact-key removal
is equivalent. -/
def removeMainOpt (st : PState) (o : String) : PState :=
  match alookup st _MAIN_SECTION_NAME with
  | Option.none => st
  | some sect => aset st _MAIN_SECTION_NAME (aremove sect o)

/-- One iteration of the cleanup loop (config.py lines 254-257): an option
not in `_DEFAULTS.keys()` is removed as obsolete. -/
def pruneStep (home : String) (s : PState) (o : String) : PState :=
  if (alookup (_DEFAULTS home) o).isSome then s else removeMainOpt s o

/-- The cleanup loop (config.py lines 254-257), iterating over a snapshot of
the current option names of the "main" section. -/
def pruneMain (home : String) (st : PState) : PState :=
  (mainKeys st).foldl (pruneStep home) st

/-- The debug dump loop (config.py lines 259-262) evaluates
`_get(option)` for every stored option; any exception it raises escapes the
module initialisation. -/
def dumpAux (home : String) (st : PState) : List String → Except PyErr Unit
  | [] => .ok ()
  | k :: rest =>
      match _get home st k with
      | .ok _ => dumpAux home st rest
      | .error e => .error e

/-- The debug dump loop over the "main" section's options. -/
def dumpCheck (home : String) (st : PState) : Except PyErr Unit :=
  dumpAux home st (mainKeys st)

/-- `logging.basicConfig(level=_LOG_LEVELS[_get(_LOG_LEVEL)], ...)`
(config.py lines 235-237): an unknown stored level name raises `KeyError`. -/
def levelLookup (lvl : String) : Except PyErr Nat :=
  match alookup _LOG_LEVELS lvl with
  | some n => .ok n
  | Option.none => .error .keyError

/-- The module-level initialisation (config.py lines 222-262): read the
settings file (re-raising malformed-file errors as `ValueError`), configure
logging from the effective log level, add the "main" section if missing,
prune unrecognized options, and dump the resulting options.  Its result is
the parser state the rest of the module operates on; an error means an
exception propagated out of the import, aborting startup. -/
def moduleInit (home : String) (file : Option (List String)) :
    Except PyErr PState :=
  match loadParser file with
  | .error e => .error e
  | .ok st0 =>
      match _get home st0 _LOG_LEVEL with
      | .error e => .error e
      | .ok lvl =>
          match levelLookup lvl with
          | .error e => .error e
          | .ok _ =>
              match dumpCheck home (pruneMain home (ensureMain st0)) with
              | .error e => .error e
              | .ok _ => .ok (pruneMain home (ensureMain st0))

end AlsConfig

namespace AlsConfig

/-- Storing under a key makes lookup under that key return the stored value. -/
theorem alookup_aset_self {α : Type} (l : List (String × α)) (k : String) (v : α) :
    alookup (aset l k v) k = some v := by
  induction l with
  | nil => simp [aset, alookup]
  | cons p rest ih =>
      obtain ⟨k', v'⟩ := p
      by_cases h : k' = k
      · simp [aset, alookup, h]
      · simp [aset, alookup, h, ih]

/-- Storing under a key adds no key other than that key. -/
theorem keys_aset {α : Type} (l : List (String × α)) (k0 : String) (v : α)
    (k : String) (hk : k ∈ keysOf (aset l k0 v)) : k ∈ keysOf l ∨ k = k0 := by
  induction l with
  | nil => simp [aset, keysOf] at hk; exact Or.inr hk
  | cons p rest ih =>
      obtain ⟨k', v'⟩ := p
      by_cases h : k' = k0
      · simp [aset, keysOf, h] at hk
        rcases hk with hk | hk
        · exact Or.inr hk
        · exact Or.inl (by simp [keysOf]; exact Or.inr hk)
      · simp [aset, keysOf, h] at hk
        rcases hk with hk | hk
        · exact Or.inl (by simp [keysOf, hk])
        · rcases ih (by simpa [keysOf] using hk) with h1 | h1
          · exact Or.inl (by simp [keysOf] at h1 ⊢; exact Or.inr h1)
          · exact Or.inr h1

/-- Removal only erases the removed key. -/
theorem keys_aremove {α : Type} (l : List (String × α)) (k0 : String)
    (k : String) (hk : k ∈ keysOf (aremove l k0)) : k ∈ keysOf l ∧ k ≠ k0 := by
  induction l with
  | nil => simp [aremove, keysOf] at hk
  | cons p rest ih =>
      obtain ⟨k', v'⟩ := p
      by_cases h : k' = k0
      · simp [aremove, h] at hk
        obtain ⟨h1, h2⟩ := ih hk
        exact ⟨by simp [keysOf] at h1 ⊢; exact Or.inr h1, h2⟩
      · simp [aremove, h, keysOf] at hk
        rcases hk with hk | hk
        · subst hk; exact ⟨by simp [keysOf], fun hc => h (by rw [hc])⟩
        · obtain ⟨h1, h2⟩ := ih (by simpa [keysOf] using hk)
          exact ⟨by simp [keysOf] at h1 ⊢; exact Or.inr h1, h2⟩


/-- Splitting a `contains` fact over a cons cell. -/
theorem contains_cons_false {c : Char} {rest : List Char}
    (h : (c :: rest).contains '%' = false) :
    c ≠ '%' ∧ rest.contains '%' = false := by
  simp [List.contains] at h ⊢
  constructor
  · intro hc; exact h.1 hc.symm
  · exact h.2

/-- A `%(name)s` reference can only match at a percent sign. -/
theorem matchKeyRef_none {c : Char} (rest : List Char) (hc : c ≠ '%') :
    matchKeyRef (c :: rest) = Option.none := by
  cases rest with
  | nil => rfl
  | cons b rest2 =>
      simp only [matchKeyRef]
      rw [if_neg]
      intro ⟨h1, _⟩; exact hc h1

/-- One interpolation scan leaves a percent-free value unchanged. -/
theorem scanLevel_noPct (sect : List (String × String))
    (recur : List Char → Except PyErr (List Char)) :
    ∀ (fuel : Nat) (l : List Char), l.length ≤ fuel →
      l.contains '%' = false → scanLevel sect recur fuel l = .ok l := by
  intro fuel
  induction fuel with
  | zero =>
      intro l hl _
      have : l = [] := List.eq_nil_of_length_eq_zero (Nat.le_zero.mp hl)
      subst this; rfl
  | succ n ih =>
      intro l hl hp
      cases l with
      | nil => rfl
      | cons c rest =>
          obtain ⟨hc, hrest⟩ := contains_cons_false hp
          have hlen : rest.length ≤ n := by
            simp only [List.length_cons] at hl; omega
          simp only [scanLevel, if_neg hc]
          rw [ih rest hlen hrest]


/-- Interpolation expansion leaves a percent-free value unchanged. -/
theorem interpolate_noPct (sect : List (String × String)) (v : String)
    (hp : v.data.contains '%' = false) : interpolate sect v = .ok v := by
  simp only [interpolate, interpLevels]
  rw [scanLevel_noPct sect _ v.data.length v.data (Nat.le_refl _) hp]

/-- Removing escaped percents leaves a percent-free value unchanged. -/
theorem removeEscapedPercents_noPct :
    ∀ (l : List Char), l.contains '%' = false → removeEscapedPercents l = l := by
  intro l
  induction l with
  | nil => intro _; rfl
  | cons a rest ih =>
      intro hp
      obtain ⟨ha, hrest⟩ := contains_cons_false hp
      cases rest with
      | nil => rfl
      | cons b rest2 =>
          simp only [removeEscapedPercents]
          rw [if_neg (by intro ⟨h1, _⟩; exact ha h1), ih hrest]

/-- Removing references leaves a percent-free value unchanged. -/
theorem removeKeyRefs_noPct :
    ∀ (fuel : Nat) (l : List Char), l.contains '%' = false →
      removeKeyRefs fuel l = l := by
  intro fuel
  induction fuel with
  | zero => intro l _; rfl
  | succ n ih =>
      intro l hp
      cases l with
      | nil => rfl
      | cons c rest =>
          obtain ⟨hc, hrest⟩ := contains_cons_false hp
          simp only [removeKeyRefs, matchKeyRef_none rest hc]
          rw [ih rest hrest]

/-- A percent-free value always passes the write-time syntax validation. -/
theorem checkInterpSyntax_noPct (s : String)
    (hp : s.data.contains '%' = false) : checkInterpSyntax s = true := by
  simp only [checkInterpSyntax, removeEscapedPercents_noPct s.data hp,
    removeKeyRefs_noPct _ s.data hp, hp, Bool.not_false]


/-- Removing an option from the main section only erases that option. -/
theorem mainKeys_removeMainOpt (st : PState) (o k : String)
    (hk : k ∈ mainKeys (removeMainOpt st o)) : k ∈ mainKeys st ∧ k ≠ o := by
  unfold removeMainOpt at hk
  cases h : alookup st _MAIN_SECTION_NAME with
  | none => rw [h] at hk; simp [mainKeys, h, keysOf] at hk
  | some sect =>
      rw [h] at hk
      simp only [mainKeys, alookup_aset_self, Option.getD_some] at hk
      obtain ⟨h1, h2⟩ := keys_aremove sect o k hk
      refine ⟨?_, h2⟩
      simpa [mainKeys, h] using h1


/-- Invariant of the cleanup loop: an option that survives the remaining
iterations is recognized or still scheduled for inspection. -/
theorem prune_fold_keys (home : String) :
    ∀ (snap : List String) (st : PState),
      (∀ k ∈ mainKeys st, (alookup (_DEFAULTS home) k).isSome = true ∨ k ∈ snap) →
      ∀ k ∈ mainKeys (snap.foldl (pruneStep home) st),
        (alookup (_DEFAULTS home) k).isSome = true := by
  intro snap
  induction snap with
  | nil =>
      intro st hpre k hk
      rcases hpre k (by simpa using hk) with h | h
      · exact h
      · simp at h
  | cons o rest ih =>
      intro st hpre k hk
      simp only [List.foldl_cons] at hk
      refine ih (pruneStep home st o) ?_ k hk
      intro k' hk'
      by_cases ho : (alookup (_DEFAULTS home) o).isSome = true
      · have : pruneStep home st o = st := by simp [pruneStep, ho]
        rw [this] at hk'
        rcases hpre k' hk' with h | h
        · exact Or.inl h
        · rcases List.mem_cons.mp h with h1 | h1
          · subst h1; exact Or.inl ho
          · exact Or.inr h1
      · have : pruneStep home st o = removeMainOpt st o := by
          simp [pruneStep, ho]
        rw [this] at hk'
        obtain ⟨h1, h2⟩ := mainKeys_removeMainOpt st o k' hk'
        rcases hpre k' h1 with h | h
        · exact Or.inl h
        · rcases List.mem_cons.mp h with h3 | h3
          · exact absurd h3 h2
          · exact Or.inr h3

/-- After the cleanup loop, every option of the main section is recognized. -/
theorem pruneMain_keys (home : String) (st : PState) :
    ∀ k ∈ mainKeys (pruneMain home st),
      (alookup (_DEFAULTS home) k).isSome = true := by
  unfold pruneMain
  exact prune_fold_keys home (mainKeys st) st (fun k hk => Or.inr hk)

/-- A successful module initialisation returns exactly the pruned state of
the loaded (and main-section-completed) parser. -/
theorem moduleInit_shape (home : String) (file : Option (List String))
    (st : PState) (h : moduleInit home file = .ok st) :
    ∃ st0, st = pruneMain home (ensureMain st0) := by
  unfold moduleInit at h
  cases h0 : loadParser file with
  | error e => simp [h0] at h
  | ok st0 =>
      simp only [h0] at h
      cases h1 : _get home st0 _LOG_LEVEL with
      | error e => simp [h1] at h
      | ok lvl =>
          simp only [h1] at h
          cases h2 : levelLookup lvl with
          | error e => simp [h2] at h
          | ok n =>
              simp only [h2] at h
              cases h3 : dumpCheck home (pruneMain home (ensureMain st0)) with
              | error e => simp [h3] at h
              | ok u =>
                  simp only [h3, Except.ok.injEq] at h
                  exact ⟨st0, h.symm⟩


/-- Case analysis of a successful `_set`: either the suppressed-write branch
returned the state unchanged, or a string differing from the current
effective value was stored under the lower-cased key. -/
theorem set_ok_cases (home : String) (st : PState) (key : String) (v : PyVal)
    (st' : PState) (h : _set home st key v = .ok st') :
    st' = st ∨
      ∃ s cur sect, v = .str s ∧ _get home st key = .ok cur ∧ s ≠ cur ∧
        checkInterpSyntax s = true ∧
        alookup st _MAIN_SECTION_NAME = some sect ∧
        st' = aset st _MAIN_SECTION_NAME (aset sect (pyLower key) s) := by
  unfold _set at h
  cases hg : _get home st key with
  | error e => simp [hg] at h
  | ok cur =>
      simp only [hg] at h
      by_cases heq : pyValEq v (.str cur) = true
      · rw [if_pos heq] at h
        injection h with h'
        exact Or.inl h'.symm
      · rw [if_neg heq] at h
        cases v with
        | pyNone => simp at h
        | int n => simp at h
        | str s =>
            dsimp only at h
            by_cases hchk : checkInterpSyntax s = true
            · rw [if_pos hchk] at h
              cases hsect : alookup st _MAIN_SECTION_NAME with
              | none => simp [hsect] at h
              | some sect =>
                  simp only [hsect, Except.ok.injEq] at h
                  refine Or.inr ⟨s, cur, sect, rfl, rfl, ?_, hchk, rfl, h.symm⟩
                  intro hc
                  exact heq (by simp [pyValEq, hc])
            · rw [if_neg hchk] at h; simp at h


/-- When the new value is a string that passes validation and differs from
the current effective value, `_set` stores it. -/
theorem set_writes (home : String) (st : PState) (key : String)
    (v1 cur : String) (sect : Section)
    (hget : _get home st key = .ok cur) (hne : v1 ≠ cur)
    (hchk : checkInterpSyntax v1 = true)
    (hsect : alookup st _MAIN_SECTION_NAME = some sect) :
    _set home st key (.str v1) =
      .ok (aset st _MAIN_SECTION_NAME (aset sect (pyLower key) v1)) := by
  unfold _set
  rw [hget]
  have heq : pyValEq (.str v1) (.str cur) = false := by
    simp [pyValEq]; exact hne
  simp only [heq, Bool.false_eq_true, if_false, hchk, if_true, hsect]

/-- Reading a key right after storing a percent-free string for it returns
that string. -/
theorem get_after_set (home : String) (st : PState) (key : String)
    (v1 fb : String) (sect : Section)
    (hfb : alookup (_DEFAULTS home) key = some fb)
    (hp : v1.data.contains '%' = false) :
    _get home (aset st _MAIN_SECTION_NAME (aset sect (pyLower key) v1)) key =
      .ok v1 := by
  unfold _get
  rw [hfb, alookup_aset_self]
  dsimp only
  rw [alookup_aset_self]
  exact interpolate_noPct _ v1 hp

/-- A successful `_get` implies the key has a default (is recognized). -/
theorem get_ok_default_isSome (home : String) (st : PState) (key : String)
    (cur : String) (h : _get home st key = .ok cur) :
    ∃ fb, alookup (_DEFAULTS home) key = some fb := by
  unfold _get at h
  cases hfb : alookup (_DEFAULTS home) key with
  | none => rw [hfb] at h; simp at h
  | some fb => exact ⟨fb, rfl⟩

/-- When every segment parses as a Python int, the geometry conversion
succeeds and returns one integer per segment. -/
theorem convSegs_ok (segs : List String)
    (h : ∀ seg ∈ segs, (pyInt seg).isSome = true) :
    ∃ ns, convSegs segs = .ok ns ∧ ns.length = segs.length := by
  induction segs with
  | nil => exact ⟨[], rfl, rfl⟩
  | cons seg rest ih =>
      obtain ⟨n, hn⟩ := Option.isSome_iff_exists.mp (h seg (by simp))
      obtain ⟨ns, hns, hlen⟩ := ih (fun s hs => h s (by simp [hs]))
      refine ⟨n :: ns, ?_, by simp [hlen]⟩
      simp only [convSegs, hn, hns]


/-- C1: for every recognized setting key (a key of `_DEFAULTS`), `_get` on the
freshly empty configuration section (no file loaded, no prior `_set`) returns
exactly the catalog's default raw value for that key, and this fallback
lookup never fails. -/
theorem C1_fresh_get_returns_default (home k d : String)
    (hd : alookup (_DEFAULTS home) k = some d) :
    moduleInit home Option.none = .ok [(_MAIN_SECTION_NAME, [])] ∧
    _get home [(_MAIN_SECTION_NAME, [])] k = .ok d := by
  refine ⟨rfl, ?_⟩
  unfold _get
  rw [hd]
  rfl

/-- Witness for C1 at the window-geometry key. -/
theorem C1_witness :
    moduleInit "/home/user" Option.none = .ok [(_MAIN_SECTION_NAME, [])] ∧
    _get "/home/user" [(_MAIN_SECTION_NAME, [])] _WINDOW_GEOMETRY
      = .ok "50,100,1024,800" :=
  C1_fresh_get_returns_default "/home/user" _WINDOW_GEOMETRY "50,100,1024,800" rfl


/-- C2 (amended): when `save` fails with an I/O error, it catches the
`OSError` (no exception escapes), logs the failure at error severity and
shows the error dialog itself, returns `None` exactly as a successful save
does (so no failure signal reaches the caller), and leaves the in-memory
state unchanged: a subsequent `_get` returns the pre-save value for every
key. -/
theorem C2_failed_save_behaviour (st : PState) :
    (save st false).1.escaped = Option.none ∧
    (save st false).1.ret = (save st true).1.ret ∧
    (save st false).1.errorLogged = true ∧
    (save st false).1.dialogShown = true ∧
    (save st false).2 = st ∧
    (∀ home key, _get home (save st false).2 key = _get home st key) :=
  ⟨rfl, rfl, rfl, rfl, rfl, fun _ _ => rfl⟩

/-- C2 counterexample: the caller-visible outcome of a failed `save` (escaped
exception and returned value) is identical to that of a successful one, so
`save` does not return a failure signal to the caller. -/
theorem C2_no_failure_signal_counterexample :
    (save [(_MAIN_SECTION_NAME, [])] false).1.escaped
      = (save [(_MAIN_SECTION_NAME, [])] true).1.escaped ∧
    (save [(_MAIN_SECTION_NAME, [])] false).1.ret
      = (save [(_MAIN_SECTION_NAME, [])] true).1.ret :=
  ⟨rfl, rfl⟩

/-- C3 counterexample: overriding the scan folder and then setting it back to
its default through the public setter yields a reachable section in which the
stored value equals the key's default, refuting the only-true-overrides
invariant. -/
theorem C3_override_equal_to_default_counterexample :
    set_scan_folder_path "/h" [(_MAIN_SECTION_NAME, [])] "X"
      = .ok [(_MAIN_SECTION_NAME, [(_SCAN_FOLDER_PATH, "X")])] ∧
    set_scan_folder_path "/h" [(_MAIN_SECTION_NAME, [(_SCAN_FOLDER_PATH, "X")])]
        "/h/als/scan"
      = .ok [(_MAIN_SECTION_NAME, [(_SCAN_FOLDER_PATH, "/h/als/scan")])] ∧
    alookup (_DEFAULTS "/h") _SCAN_FOLDER_PATH = some "/h/als/scan" ∧
    alookup [(_SCAN_FOLDER_PATH, "/h/als/scan")] _SCAN_FOLDER_PATH
      = some "/h/als/scan" :=
  ⟨rfl, rfl, rfl, rfl⟩

/-- C3 (amended): a state-changing `_set` only ever writes a string value
that differs from the key's current *effective* value; however, since the
comparison is against the effective value and never removes entries, a key
present in the section may later map to exactly its default. -/
theorem C3_writes_only_differing_values (home : String) (st : PState)
    (key : String) (v : PyVal) (st' : PState)
    (h : _set home st key v = .ok st') (hch : st' ≠ st) :
    ∃ s cur, v = .str s ∧ _get home st key = .ok cur ∧ s ≠ cur := by
  rcases set_ok_cases home st key v st' h with
    h1 | ⟨s, cur, sect, h1, h2, h3, _, _, _⟩
  · exact absurd h1 hch
  · exact ⟨s, cur, h1, h2, h3⟩

/-- Witness for C3 at a concrete state-changing write. -/
theorem C3_witness :
    ∃ s cur, PyVal.str "DEBUG" = .str s ∧
      _get "/h" [(_MAIN_SECTION_NAME, [])] _LOG_LEVEL = .ok cur ∧ s ≠ cur :=
  C3_writes_only_differing_values "/h" [(_MAIN_SECTION_NAME, [])] _LOG_LEVEL
    (.str "DEBUG") [(_MAIN_SECTION_NAME, [(_LOG_LEVEL, "DEBUG")])] rfl (by decide)


/-- C4 counterexample: with default interpolation, the raw value `50%%`
differs from the current effective value `INFO`, is stored by `_set`, but
`_get` expands the escaped percent and returns `50%`, not the value that was
set. -/
theorem C4_percent_roundtrip_counterexample :
    _get "/h" [(_MAIN_SECTION_NAME, [])] _LOG_LEVEL = .ok "INFO" ∧
    ("50%%" : String) ≠ "INFO" ∧
    _set "/h" [(_MAIN_SECTION_NAME, [])] _LOG_LEVEL (.str "50%%")
      = .ok [(_MAIN_SECTION_NAME, [(_LOG_LEVEL, "50%%")])] ∧
    _get "/h" [(_MAIN_SECTION_NAME, [(_LOG_LEVEL, "50%%")])] _LOG_LEVEL
      = .ok "50%" ∧
    ("50%" : String) ≠ "50%%" :=
  ⟨rfl, by decide, rfl, rfl, by decide⟩

/-- C4 (amended): for every recognized key and every percent-free raw string
differing from the key's current effective value, `_set` followed by `_get`
returns exactly that string. -/
theorem C4_set_get_roundtrip (home : String) (st : PState) (sect : Section)
    (key cur v1 : String)
    (hsect : alookup st _MAIN_SECTION_NAME = some sect)
    (hget : _get home st key = .ok cur)
    (hne : v1 ≠ cur)
    (hp : v1.data.contains '%' = false) :
    ∃ st', _set home st key (.str v1) = .ok st' ∧ _get home st' key = .ok v1 := by
  obtain ⟨fb, hfb⟩ := get_ok_default_isSome home st key cur hget
  exact ⟨_, set_writes home st key v1 cur sect hget hne
      (checkInterpSyntax_noPct v1 hp) hsect,
    get_after_set home st key v1 fb sect hfb hp⟩

/-- Witness for C4 at the log-level key. -/
theorem C4_witness :
    ∃ st', _set "/h" [(_MAIN_SECTION_NAME, [])] _LOG_LEVEL (.str "DEBUG")
        = .ok st' ∧
      _get "/h" st' _LOG_LEVEL = .ok "DEBUG" :=
  C4_set_get_roundtrip "/h" [(_MAIN_SECTION_NAME, [])] [] _LOG_LEVEL "INFO"
    "DEBUG" rfl rfl (by decide) (by decide)

/-- C5: calling `_set` with the key's current effective value (the stored
override if present, else the default) returns the configuration state
completely unchanged. -/
theorem C5_redundant_set_noop (home : String) (st : PState) (key cur : String)
    (hget : _get home st key = .ok cur) :
    _set home st key (.str cur) = .ok st := by
  unfold _set
  rw [hget]
  simp [pyValEq]

/-- Witness for C5: redundant write of the default log level. -/
theorem C5_witness :
    _set "/h" [(_MAIN_SECTION_NAME, [])] _LOG_LEVEL (.str "INFO")
      = .ok [(_MAIN_SECTION_NAME, [])] :=
  C5_redundant_set_noop "/h" [(_MAIN_SECTION_NAME, [])] _LOG_LEVEL "INFO" rfl


/-- The option names of the main section, given its stored mapping. -/
theorem mainKeys_of_sect (st : PState) (sect : Section)
    (h : alookup st _MAIN_SECTION_NAME = some sect) :
    mainKeys st = keysOf sect := by
  simp [mainKeys, h]

/-- A successful `_set` under a recognized key introduces no unrecognized
option name. -/
theorem set_preserves_recognized (home : String) (st : PState) (key : String)
    (v : PyVal) (st' : PState) (h : _set home st key v = .ok st')
    (hk : (alookup (_DEFAULTS home) (pyLower key)).isSome = true) :
    ∀ k ∈ mainKeys st', k ∈ mainKeys st ∨
      (alookup (_DEFAULTS home) k).isSome = true := by
  intro k hkm
  rcases set_ok_cases home st key v st' h with
    h1 | ⟨s, cur, sect, _, _, _, _, hsect, hst'⟩
  · exact Or.inl (h1 ▸ hkm)
  · rw [hst'] at hkm
    rw [show mainKeys (aset st _MAIN_SECTION_NAME (aset sect (pyLower key) s))
        = keysOf (aset sect (pyLower key) s) from
      mainKeys_of_sect _ _ (alookup_aset_self _ _ _)] at hkm
    rcases keys_aset sect (pyLower key) s k hkm with h2 | h2
    · exact Or.inl (by rw [mainKeys_of_sect st sect hsect]; exact h2)
    · exact Or.inr (h2 ▸ hk)


/-- C6: only recognized keys ever appear in the main section: after module
initialisation every stored option is a key of `_DEFAULTS` (pruning removes
the rest, as the concrete one-recognized-one-bogus load shows), and no public
setter can introduce an unrecognized option name. -/
theorem C6_only_recognized_keys :
    (∀ home file st, moduleInit home file = .ok st →
        ∀ k ∈ mainKeys st, (alookup (_DEFAULTS home) k).isSome = true) ∧
    (moduleInit "/h" (some ["[main]", "log_level = DEBUG", "bogus_key = 33"])
        = .ok [(_MAIN_SECTION_NAME, [(_LOG_LEVEL, "DEBUG")])]) ∧
    (∀ home st p st', set_scan_folder_path home st p = .ok st' →
        ∀ k ∈ mainKeys st', k ∈ mainKeys st ∨
          (alookup (_DEFAULTS home) k).isSome = true) ∧
    (∀ home st p st', set_work_folder_path home st p = .ok st' →
        ∀ k ∈ mainKeys st', k ∈ mainKeys st ∨
          (alookup (_DEFAULTS home) k).isSome = true) ∧
    (∀ home st v st', set_www_server_port_number home st v = .ok st' →
        ∀ k ∈ mainKeys st', k ∈ mainKeys st ∨
          (alookup (_DEFAULTS home) k).isSome = true) ∧
    (∀ home st g st', set_window_geometry home st g = .ok st' →
        ∀ k ∈ mainKeys st', k ∈ mainKeys st ∨
          (alookup (_DEFAULTS home) k).isSome = true) ∧
    (∀ home st b st', set_debug_log home st b = .ok st' →
        ∀ k ∈ mainKeys st', k ∈ mainKeys st ∨
          (alookup (_DEFAULTS home) k).isSome = true) := by
  refine ⟨?_, rfl, ?_, ?_, ?_, ?_, ?_⟩
  · intro home file st h k hk
    obtain ⟨st0, hst⟩ := moduleInit_shape home file st h
    exact pruneMain_keys home (ensureMain st0) k (hst ▸ hk)
  · intro home st p st' h
    exact set_preserves_recognized home st _SCAN_FOLDER_PATH (.str p) st' h rfl
  · intro home st p st' h
    exact set_preserves_recognized home st _WORK_FOLDER_PATH (.str p) st' h rfl
  · intro home st v st' h
    exact set_preserves_recognized home st _WWW_SERVER_PORT v st' h rfl
  · intro home st g st' h
    exact set_preserves_recognized home st _WINDOW_GEOMETRY _ st' h rfl
  · intro home st b st' h
    cases b with
    | true =>
        exact set_preserves_recognized home st _LOG_LEVEL
          (.str _LOG_LEVEL_DEBUG) st' h rfl
    | false =>
        exact set_preserves_recognized home st _LOG_LEVEL
          (.str _LOG_LEVEL_INFO) st' h rfl

/-- Witness for C6: the surviving key of the concrete pruned load is recognized. -/
theorem C6_witness :
    (alookup (_DEFAULTS "/h") _LOG_LEVEL).isSome = true :=
  C6_only_recognized_keys.1 "/h"
    (some ["[main]", "log_level = DEBUG", "bogus_key = 33"])
    [(_MAIN_SECTION_NAME, [(_LOG_LEVEL, "DEBUG")])] rfl _LOG_LEVEL (by decide)


/-- C7: a missing settings file is not an error and yields an empty main
section, while a file with a duplicate option or unparsable syntax makes the
module initialisation fail with an uncaught `ValueError` and no section is
returned. -/
theorem C7_malformed_fatal_missing_empty :
    (∀ home, moduleInit home Option.none = .ok [(_MAIN_SECTION_NAME, [])]) ∧
    (∀ home lines, parseLines lines = .error .dupOption →
        moduleInit home (some lines) = .error .valueError) ∧
    (∀ home lines, parseLines lines = .error .parsing →
        moduleInit home (some lines) = .error .valueError) ∧
    parseLines ["[main]", "log_level = INFO", "log_level = DEBUG"]
      = .error .dupOption ∧
    parseLines ["[main]", "what is this"] = .error .parsing := by
  refine ⟨fun _ => rfl, ?_, ?_, rfl, rfl⟩
  · intro home lines h
    have hl : loadParser (some lines) = .error .valueError := by
      unfold loadParser; dsimp only; rw [h]
    unfold moduleInit; rw [hl]
  · intro home lines h
    have hl : loadParser (some lines) = .error .valueError := by
      unfold loadParser; dsimp only; rw [h]
    unfold moduleInit; rw [hl]

/-- Witness for C7 at concrete malformed files. -/
theorem C7_witness :
    moduleInit "/h" (some ["[main]", "log_level = INFO", "log_level = DEBUG"])
        = .error .valueError ∧
    moduleInit "/h" (some ["[main]", "what is this"]) = .error .valueError :=
  ⟨C7_malformed_fatal_missing_empty.2.1 "/h" _ rfl,
   C7_malformed_fatal_missing_empty.2.2.1 "/h" _ rfl⟩

/-- C8: when the stored raw port value does not parse as a Python int, the
port getter returns the default's raw textual form, the *string* `"8000"`;
when it parses, the getter returns the converted *integer*. -/
theorem C8_port_get_fallback_type (home : String) (st : PState)
    (sect : Section) (s : String)
    (hsect : alookup st _MAIN_SECTION_NAME = some sect)
    (hstored : alookup sect _WWW_SERVER_PORT = some s)
    (hp : s.data.contains '%' = false) :
    (pyInt s = Option.none →
        get_www_server_port_number home st = .ok (.str "8000")) ∧
    (∀ n, pyInt s = some n →
        get_www_server_port_number home st = .ok (.int n)) := by
  have hget : _get home st _WWW_SERVER_PORT = .ok s := by
    unfold _get
    rw [show alookup (_DEFAULTS home) _WWW_SERVER_PORT = some "8000" from rfl,
      hsect]
    dsimp only
    rw [show pyLower _WWW_SERVER_PORT = _WWW_SERVER_PORT from rfl, hstored]
    exact interpolate_noPct sect s hp
  constructor
  · intro hn
    unfold get_www_server_port_number
    rw [hget]
    dsimp only
    rw [hn]
    rfl
  · intro n hn
    unfold get_www_server_port_number
    rw [hget]
    dsimp only
    rw [hn]

/-- Witness for C8 on both the unparsable and the parsable branch. -/
theorem C8_witness :
    get_www_server_port_number "/h"
        [(_MAIN_SECTION_NAME, [(_WWW_SERVER_PORT, "notanumber")])]
      = .ok (.str "8000") ∧
    get_www_server_port_number "/h"
        [(_MAIN_SECTION_NAME, [(_WWW_SERVER_PORT, "1234")])]
      = .ok (.int 1234) :=
  ⟨(C8_port_get_fallback_type "/h"
      [(_MAIN_SECTION_NAME, [(_WWW_SERVER_PORT, "notanumber")])]
      [(_WWW_SERVER_PORT, "notanumber")] "notanumber" rfl rfl (by decide)).1 rfl,
   (C8_port_get_fallback_type "/h"
      [(_MAIN_SECTION_NAME, [(_WWW_SERVER_PORT, "1234")])]
      [(_WWW_SERVER_PORT, "1234")] "1234" rfl rfl (by decide)).2 1234 rfl⟩

/-- C9: evaluating the port setter at an integer argument (the type its
docstring prescribes): the value is passed through to `ConfigParser.set`
without conversion to text, which raises `TypeError` instead of storing the
value. -/
theorem C9_int_port_set_raises_typeerror :
    set_www_server_port_number "/h" [(_MAIN_SECTION_NAME, [])] (.int 1234)
      = .error .typeError := rfl

/-- C10: whenever every comma-separated segment of the stored geometry value
parses as an integer, the geometry getter returns a tuple with exactly one
integer per segment; the four-element count is never enforced, so a
three-segment raw value yields a 3-tuple, not an error. -/
theorem C10_geometry_tuple_arity :
    (∀ home st s, _get home st _WINDOW_GEOMETRY = .ok s →
        (∀ seg ∈ pySplitComma s, (pyInt seg).isSome = true) →
        ∃ ns, get_window_geometry home st = .ok ns ∧
          ns.length = (pySplitComma s).length) ∧
    get_window_geometry "/h" [(_MAIN_SECTION_NAME, [(_WINDOW_GEOMETRY, "1,2,3")])]
      = .ok [1, 2, 3] := by
  constructor
  · intro home st s hget hall
    obtain ⟨ns, hns, hlen⟩ := convSegs_ok (pySplitComma s) hall
    refine ⟨ns, ?_, hlen⟩
    unfold get_window_geometry
    rw [hget]
    exact hns
  · rfl

/-- Witness for C10 at a three-segment raw value. -/
theorem C10_witness :
    ∃ ns, get_window_geometry "/h"
        [(_MAIN_SECTION_NAME, [(_WINDOW_GEOMETRY, "1,2,3")])] = .ok ns ∧
      ns.length = (pySplitComma "1,2,3").length :=
  C10_geometry_tuple_arity.1 "/h"
    [(_MAIN_SECTION_NAME, [(_WINDOW_GEOMETRY, "1,2,3")])] "1,2,3" rfl (by decide)

end AlsConfig
